import Mathlib

/-
Shallow embedding of the typed uniform/data-transfer subsystem of the
three-d core (`src/core.rs`): the numeric base-kind registry, the
composite-type classifier (`DataType` / `PrimitiveDataType` impls), the
uniform dispatch engine, the byte-reinterpretation bridge and the
image-format resolver.

Modelling conventions:
- The raw graphics binding (`crate::context`, the external glow crate) is
  observed only through which low-level entry point gets invoked with which
  flattened data; this is captured by the inductive trace type `GLCall`.
  Its numeric format constants are the standard OpenGL enum values that the
  binding re-exports.
- Machine integers u8/u16/i8/i16 are bounded structures over Nat/Int
  (widening casts in the source never overflow, and the bound makes that
  explicit); u32 is Nat, i32 is Int.
- f32 payloads are modelled by the exact rational value they denote; an f16
  value is likewise carried as the rational it denotes, and the external
  `half::f16::to_f32` conversion is exact on every f16 value, hence the
  identity on denotations.
- A Rust panic (`unreachable!()` in the format tables, `unimplemented!()`
  in the integer matrix dispatch) is modelled as `Option.none`; a normal
  return is `some`.
-/

namespace ThreeD

/- OpenGL constants re-exported by the context binding. -/

namespace context

def RED : Nat := 0x1903
def RG : Nat := 0x8227
def RGB : Nat := 0x1907
def RGBA : Nat := 0x1908

def R8 : Nat := 0x8229
def RG8 : Nat := 0x822B
def RGB8 : Nat := 0x8051
def RGBA8 : Nat := 0x8058

def R16UI : Nat := 0x8234
def RG16UI : Nat := 0x823A
def RGB16UI : Nat := 0x8D77
def RGBA16UI : Nat := 0x8D76

def R32UI : Nat := 0x8236
def RG32UI : Nat := 0x823C
def RGB32UI : Nat := 0x8D71
def RGBA32UI : Nat := 0x8D70

def R8I : Nat := 0x8231
def RG8I : Nat := 0x8237
def RGB8I : Nat := 0x8D8F
def RGBA8I : Nat := 0x8D8E

def R16I : Nat := 0x8233
def RG16I : Nat := 0x8239
def RGB16I : Nat := 0x8D89
def RGBA16I : Nat := 0x8D88

def R32I : Nat := 0x8235
def RG32I : Nat := 0x823B
def RGB32I : Nat := 0x8D83
def RGBA32I : Nat := 0x8D82

def R16F : Nat := 0x822D
def RG16F : Nat := 0x822F
def RGB16F : Nat := 0x881B
def RGBA16F : Nat := 0x881A

def R32F : Nat := 0x822E
def RG32F : Nat := 0x8230
def RGB32F : Nat := 0x8815
def RGBA32F : Nat := 0x8814

def BYTE : Nat := 0x1400
def UNSIGNED_BYTE : Nat := 0x1401
def SHORT : Nat := 0x1402
def UNSIGNED_SHORT : Nat := 0x1403
def INT : Nat := 0x1404
def UNSIGNED_INT : Nat := 0x1405
def FLOAT : Nat := 0x1406
def HALF_FLOAT : Nat := 0x140B

end context

/-- The `internal::UniformType` enum of `core.rs`. -/
inductive UniformType where
  | Value
  | Vec2
  | Vec3
  | Vec4
  | Mat2
  | Mat3
  | Mat4
deriving DecidableEq, Repr

/-- One low-level uniform transfer call against the GPU context: the
observable effect of a dispatch. The binding offers entry points only at
the native widths u32 / i32 / f32 (f32 payloads carried as the exact
rationals they denote); matrix entry points also record the transpose
flag. -/
inductive GLCall where
  | uniform_1_u32_slice (data : List Nat)
  | uniform_2_u32_slice (data : List Nat)
  | uniform_3_u32_slice (data : List Nat)
  | uniform_4_u32_slice (data : List Nat)
  | uniform_1_i32_slice (data : List Int)
  | uniform_2_i32_slice (data : List Int)
  | uniform_3_i32_slice (data : List Int)
  | uniform_4_i32_slice (data : List Int)
  | uniform_1_f32_slice (data : List Rat)
  | uniform_2_f32_slice (data : List Rat)
  | uniform_3_f32_slice (data : List Rat)
  | uniform_4_f32_slice (data : List Rat)
  | uniform_matrix_2_f32_slice (transpose : Bool) (data : List Rat)
  | uniform_matrix_3_f32_slice (transpose : Bool) (data : List Rat)
  | uniform_matrix_4_f32_slice (transpose : Bool) (data : List Rat)
deriving DecidableEq, Repr

/-- A machine `u8` value. -/
structure U8 where
  val : Nat
  isLt : val < 2 ^ 8
deriving DecidableEq, Repr

/-- A machine `u16` value. -/
structure U16 where
  val : Nat
  isLt : val < 2 ^ 16
deriving DecidableEq, Repr

/-- A machine `i8` value. -/
structure I8 where
  val : Int
  isLe : -(2 ^ 7) ≤ val
  isLt : val < 2 ^ 7
deriving DecidableEq, Repr

/-- A machine `i16` value. -/
structure I16 where
  val : Int
  isLe : -(2 ^ 15) ≤ val
  isLt : val < 2 ^ 15
deriving DecidableEq, Repr

/-- A `half::f16` value, represented by the exact rational number it
denotes. -/
structure F16 where
  val : Rat
deriving DecidableEq, Repr

/-- The Rust cast `v as u32` on a `u8`: zero extension, value preserving. -/
def U8.as_u32 (v : U8) : Nat := v.val

/-- The Rust cast `v as u32` on a `u16`: zero extension, value preserving. -/
def U16.as_u32 (v : U16) : Nat := v.val

/-- The Rust cast `v as i32` on an `i8`: sign extension, value preserving. -/
def I8.as_i32 (v : I8) : Int := v.val

/-- The Rust cast `v as i32` on an `i16`: sign extension, value preserving. -/
def I16.as_i32 (v : I16) : Int := v.val

/-- The external `half::f16::to_f32` conversion. Every f16 value is exactly
representable as an f32, so on denotations it is the identity. -/
def F16.to_f32 (v : F16) : Rat := v.val

/-- The Rust cast `v as f32` on a `u8` channel: exact, value preserving. -/
def U8.as_f32 (v : U8) : Rat := (v.val : Rat)

namespace u32

/-- `impl PrimitiveDataType for u32`, `fn internal_format_with_size`. -/
def internal_format_with_size (size : Nat) : Option Nat :=
  match size with
  | 1 => some context.R32UI
  | 2 => some context.RG32UI
  | 3 => some context.RGB32UI
  | 4 => some context.RGBA32UI
  | _ => none

/-- `impl PrimitiveDataType for u32`, `fn send_uniform_with_type`: the
matrix arms hit `unimplemented!()`, modelled as `none`. -/
def send_uniform_with_type (data : List Nat) (t : UniformType) : Option GLCall :=
  match t with
  | .Value => some (.uniform_1_u32_slice data)
  | .Vec2 => some (.uniform_2_u32_slice data)
  | .Vec3 => some (.uniform_3_u32_slice data)
  | .Vec4 => some (.uniform_4_u32_slice data)
  | _ => none

end u32

namespace i32

/-- `impl PrimitiveDataType for i32`, `fn internal_format_with_size`. -/
def internal_format_with_size (size : Nat) : Option Nat :=
  match size with
  | 1 => some context.R32I
  | 2 => some context.RG32I
  | 3 => some context.RGB32I
  | 4 => some context.RGBA32I
  | _ => none

/-- `impl PrimitiveDataType for i32`, `fn send_uniform_with_type`: the
matrix arms hit `unimplemented!()`, modelled as `none`. -/
def send_uniform_with_type (data : List Int) (t : UniformType) : Option GLCall :=
  match t with
  | .Value => some (.uniform_1_i32_slice data)
  | .Vec2 => some (.uniform_2_i32_slice data)
  | .Vec3 => some (.uniform_3_i32_slice data)
  | .Vec4 => some (.uniform_4_i32_slice data)
  | _ => none

end i32

namespace f32

/-- `impl PrimitiveDataType for f32`, `fn internal_format_with_size`. -/
def internal_format_with_size (size : Nat) : Option Nat :=
  match size with
  | 1 => some context.R32F
  | 2 => some context.RG32F
  | 3 => some context.RGB32F
  | 4 => some context.RGBA32F
  | _ => none

/-- `impl PrimitiveDataType for f32`, `fn send_uniform_with_type`: the only
base kind with matrix entry points, always invoked non-transposed. -/
def send_uniform_with_type (data : List Rat) (t : UniformType) : Option GLCall :=
  match t with
  | .Value => some (.uniform_1_f32_slice data)
  | .Vec2 => some (.uniform_2_f32_slice data)
  | .Vec3 => some (.uniform_3_f32_slice data)
  | .Vec4 => some (.uniform_4_f32_slice data)
  | .Mat2 => some (.uniform_matrix_2_f32_slice false data)
  | .Mat3 => some (.uniform_matrix_3_f32_slice false data)
  | .Mat4 => some (.uniform_matrix_4_f32_slice false data)

end f32

namespace u8

/-- `impl PrimitiveDataType for u8`, `fn internal_format_with_size`. -/
def internal_format_with_size (size : Nat) : Option Nat :=
  match size with
  | 1 => some context.R8
  | 2 => some context.RG8
  | 3 => some context.RGB8
  | 4 => some context.RGBA8
  | _ => none

/-- `impl PrimitiveDataType for u8`, `fn send_uniform_with_type`: widens
every element with `as u32` and re-dispatches through the u32 impl. -/
def send_uniform_with_type (data : List U8) (t : UniformType) : Option GLCall :=
  u32.send_uniform_with_type (data.map U8.as_u32) t

end u8

namespace u16

/-- `impl PrimitiveDataType for u16`, `fn internal_format_with_size`. -/
def internal_format_with_size (size : Nat) : Option Nat :=
  match size with
  | 1 => some context.R16UI
  | 2 => some context.RG16UI
  | 3 => some context.RGB16UI
  | 4 => some context.RGBA16UI
  | _ => none

/-- `impl PrimitiveDataType for u16`, `fn send_uniform_with_type`: widens
every element with `as u32` and re-dispatches through the u32 impl. -/
def send_uniform_with_type (data : List U16) (t : UniformType) : Option GLCall :=
  u32.send_uniform_with_type (data.map U16.as_u32) t

end u16

namespace i8

/-- `impl PrimitiveDataType for i8`, `fn internal_format_with_size`. -/
def internal_format_with_size (size : Nat) : Option Nat :=
  match size with
  | 1 => some context.R8I
  | 2 => some context.RG8I
  | 3 => some context.RGB8I
  | 4 => some context.RGBA8I
  | _ => none

/-- `impl PrimitiveDataType for i8`, `fn send_uniform_with_type`: widens
every element with `as i32` and re-dispatches through the i32 impl. -/
def send_uniform_with_type (data : List I8) (t : UniformType) : Option GLCall :=
  i32.send_uniform_with_type (data.map I8.as_i32) t

end i8

namespace i16

/-- `impl PrimitiveDataType for i16`, `fn internal_format_with_size`. -/
def internal_format_with_size (size : Nat) : Option Nat :=
  match size with
  | 1 => some context.R16I
  | 2 => some context.RG16I
  | 3 => some context.RGB16I
  | 4 => some context.RGBA16I
  | _ => none

/-- `impl PrimitiveDataType for i16`, `fn send_uniform_with_type`: widens
every element with `as i32` and re-dispatches through the i32 impl. -/
def send_uniform_with_type (data : List I16) (t : UniformType) : Option GLCall :=
  i32.send_uniform_with_type (data.map I16.as_i32) t

end i16

namespace f16

/-- `impl PrimitiveDataType for f16`, `fn internal_format_with_size`. -/
def internal_format_with_size (size : Nat) : Option Nat :=
  match size with
  | 1 => some context.R16F
  | 2 => some context.RG16F
  | 3 => some context.RGB16F
  | 4 => some context.RGBA16F
  | _ => none

/-- `impl PrimitiveDataType for f16`, `fn send_uniform_with_type`: converts
every element with `to_f32` and re-dispatches through the f32 impl. -/
def send_uniform_with_type (data : List F16) (t : UniformType) : Option GLCall :=
  f32.send_uniform_with_type (data.map F16.to_f32) t

end f16

/-- A 2-component vector (cgmath `Vector2`, named fields). -/
structure Vector2 (T : Type) where
  x : T
  y : T
deriving DecidableEq, Repr

/-- A 3-component vector (cgmath `Vector3`, named fields). -/
structure Vector3 (T : Type) where
  x : T
  y : T
  z : T
deriving DecidableEq, Repr

/-- A 4-component vector (cgmath `Vector4`, named fields). -/
structure Vector4 (T : Type) where
  x : T
  y : T
  z : T
  w : T
deriving DecidableEq, Repr

/-- A quaternion (cgmath `Quaternion`): vector part `v` and scalar (real)
part `s`. -/
structure Quaternion (T : Type) where
  v : Vector3 T
  s : T
deriving DecidableEq, Repr

/-- A 2x2 matrix (cgmath `Matrix2`): fields `x`, `y` are the columns. -/
structure Matrix2 (T : Type) where
  x : Vector2 T
  y : Vector2 T
deriving DecidableEq, Repr

/-- A 3x3 matrix (cgmath `Matrix3`): fields `x`, `y`, `z` are the columns. -/
structure Matrix3 (T : Type) where
  x : Vector3 T
  y : Vector3 T
  z : Vector3 T
deriving DecidableEq, Repr

/-- A 4x4 matrix (cgmath `Matrix4`): fields `x`, `y`, `z`, `w` are the
columns. -/
structure Matrix4 (T : Type) where
  x : Vector4 T
  y : Vector4 T
  z : Vector4 T
  w : Vector4 T
deriving DecidableEq, Repr

/-- The repository's packed color: four 8-bit channels r, g, b, a. -/
structure Color where
  r : U8
  g : U8
  b : U8
  a : U8
deriving DecidableEq, Repr

/-- The `internal::DataType` trait: the composite-type classifier
(`internal_format`, `data_type`, `size`) together with the uniform
dispatch entry (`send_uniform`). -/
class DataType (T : Type) where
  internal_format : Option Nat
  data_type : Nat
  size : Nat
  send_uniform : List T → Option GLCall

/-- The `internal::PrimitiveDataType` trait (`DataType + Copy`): scalar
kinds usable as elements of composite uniform values. -/
class PrimitiveDataType (T : Type) extends DataType T where
  send_uniform_with_type : List T → UniformType → Option GLCall
  internal_format_with_size : Nat → Option Nat

instance : PrimitiveDataType U8 where
  internal_format := u8.internal_format_with_size 1
  data_type := context.UNSIGNED_BYTE
  size := 1
  send_uniform := fun data => u8.send_uniform_with_type data .Value
  send_uniform_with_type := u8.send_uniform_with_type
  internal_format_with_size := u8.internal_format_with_size

instance : PrimitiveDataType U16 where
  internal_format := u16.internal_format_with_size 1
  data_type := context.UNSIGNED_SHORT
  size := 1
  send_uniform := fun data => u16.send_uniform_with_type data .Value
  send_uniform_with_type := u16.send_uniform_with_type
  internal_format_with_size := u16.internal_format_with_size

instance : PrimitiveDataType Nat where
  internal_format := u32.internal_format_with_size 1
  data_type := context.UNSIGNED_INT
  size := 1
  send_uniform := fun data => u32.send_uniform_with_type data .Value
  send_uniform_with_type := u32.send_uniform_with_type
  internal_format_with_size := u32.internal_format_with_size

instance : PrimitiveDataType I8 where
  internal_format := i8.internal_format_with_size 1
  data_type := context.BYTE
  size := 1
  send_uniform := fun data => i8.send_uniform_with_type data .Value
  send_uniform_with_type := i8.send_uniform_with_type
  internal_format_with_size := i8.internal_format_with_size

instance : PrimitiveDataType I16 where
  internal_format := i16.internal_format_with_size 1
  data_type := context.SHORT
  size := 1
  send_uniform := fun data => i16.send_uniform_with_type data .Value
  send_uniform_with_type := i16.send_uniform_with_type
  internal_format_with_size := i16.internal_format_with_size

instance : PrimitiveDataType Int where
  internal_format := i32.internal_format_with_size 1
  data_type := context.INT
  size := 1
  send_uniform := fun data => i32.send_uniform_with_type data .Value
  send_uniform_with_type := i32.send_uniform_with_type
  internal_format_with_size := i32.internal_format_with_size

instance : PrimitiveDataType F16 where
  internal_format := f16.internal_format_with_size 1
  data_type := context.HALF_FLOAT
  size := 1
  send_uniform := fun data => f16.send_uniform_with_type data .Value
  send_uniform_with_type := f16.send_uniform_with_type
  internal_format_with_size := f16.internal_format_with_size

instance : PrimitiveDataType Rat where
  internal_format := f32.internal_format_with_size 1
  data_type := context.FLOAT
  size := 1
  send_uniform := fun data => f32.send_uniform_with_type data .Value
  send_uniform_with_type := f32.send_uniform_with_type
  internal_format_with_size := f32.internal_format_with_size

/-- `impl<T: PrimitiveDataType> DataType for Vector2<T>`. -/
instance [PrimitiveDataType T] : DataType (Vector2 T) where
  internal_format := PrimitiveDataType.internal_format_with_size (T := T) 2
  data_type := DataType.data_type (T := T)
  size := 2
  send_uniform := fun data =>
    PrimitiveDataType.send_uniform_with_type
      (data.flatMap fun v => [v.x, v.y]) .Vec2

/-- `impl<T: PrimitiveDataType> DataType for Vector3<T>`. -/
instance [PrimitiveDataType T] : DataType (Vector3 T) where
  internal_format := PrimitiveDataType.internal_format_with_size (T := T) 3
  data_type := DataType.data_type (T := T)
  size := 3
  send_uniform := fun data =>
    PrimitiveDataType.send_uniform_with_type
      (data.flatMap fun v => [v.x, v.y, v.z]) .Vec3

/-- `impl<T: PrimitiveDataType> DataType for Vector4<T>`. -/
instance [PrimitiveDataType T] : DataType (Vector4 T) where
  internal_format := PrimitiveDataType.internal_format_with_size (T := T) 4
  data_type := DataType.data_type (T := T)
  size := 4
  send_uniform := fun data =>
    PrimitiveDataType.send_uniform_with_type
      (data.flatMap fun v => [v.x, v.y, v.z, v.w]) .Vec4

/-- `impl<T: PrimitiveDataType> DataType for Quaternion<T>`: flattened as
a 4-component vector ordered (x, y, z, scalar part), dispatched as Vec4. -/
instance [PrimitiveDataType T] : DataType (Quaternion T) where
  internal_format := PrimitiveDataType.internal_format_with_size (T := T) 4
  data_type := DataType.data_type (T := T)
  size := 4
  send_uniform := fun data =>
    PrimitiveDataType.send_uniform_with_type
      (data.flatMap fun v => [v.v.x, v.v.y, v.v.z, v.s]) .Vec4

/-- `impl DataType for Color`: classified through the u8 kind (size 4),
but sent as normalized f32 values through the Vec4 float entry point. -/
instance : DataType Color where
  internal_format := u8.internal_format_with_size 4
  data_type := context.UNSIGNED_BYTE
  size := 4
  send_uniform := fun data =>
    f32.send_uniform_with_type
      (data.flatMap fun v =>
        [v.r.as_f32 / 255, v.g.as_f32 / 255, v.b.as_f32 / 255, v.a.as_f32 / 255])
      .Vec4

/-- `impl<T: PrimitiveDataType> DataType for Matrix2<T>`: size is the
matrix element count 4; columns are flattened in order. -/
instance [PrimitiveDataType T] : DataType (Matrix2 T) where
  internal_format := PrimitiveDataType.internal_format_with_size (T := T) 4
  data_type := DataType.data_type (T := T)
  size := 4
  send_uniform := fun data =>
    PrimitiveDataType.send_uniform_with_type
      (data.flatMap fun v => [v.x.x, v.x.y, v.y.x, v.y.y]) .Mat2

/-- `impl<T: PrimitiveDataType> DataType for Matrix3<T>`: size is the
matrix element count 9; columns are flattened in order. -/
instance [PrimitiveDataType T] : DataType (Matrix3 T) where
  internal_format := PrimitiveDataType.internal_format_with_size (T := T) 9
  data_type := DataType.data_type (T := T)
  size := 9
  send_uniform := fun data =>
    PrimitiveDataType.send_uniform_with_type
      (data.flatMap fun v =>
        [v.x.x, v.x.y, v.x.z, v.y.x, v.y.y, v.y.z, v.z.x, v.z.y, v.z.z])
      .Mat3

/-- `impl<T: PrimitiveDataType> DataType for Matrix4<T>`: size is the
matrix element count 16; columns are flattened in order. -/
instance [PrimitiveDataType T] : DataType (Matrix4 T) where
  internal_format := PrimitiveDataType.internal_format_with_size (T := T) 16
  data_type := DataType.data_type (T := T)
  size := 16
  send_uniform := fun data =>
    PrimitiveDataType.send_uniform_with_type
      (data.flatMap fun v =>
        [v.x.x, v.x.y, v.x.z, v.x.w, v.y.x, v.y.y, v.y.z, v.y.w,
         v.z.x, v.z.y, v.z.z, v.z.w, v.w.x, v.w.y, v.w.z, v.w.w])
      .Mat4

/-- `fn format_from_data_type<T: DataType>() -> u32`: image-format
resolution from the value type's component count; counts outside
{1,2,3,4} hit `unreachable!()`, modelled as `none`. -/
def format_from_data_type (T : Type) [DataType T] : Option Nat :=
  match DataType.size (T := T) with
  | 1 => some context.RED
  | 2 => some context.RG
  | 3 => some context.RGB
  | 4 => some context.RGBA
  | _ => none

/-- Byte-level layout of a fixed-size numeric composite type: the in-memory
representation that the unsafe reinterpretation functions of `core.rs`
observe. `encode` lists the `size_of` bytes of one value in memory order;
`decode` reads one value back from a chunk of bytes. The two laws record
that the types used with the bridge are plain-old-data: every value
occupies exactly `size_of` bytes and is recovered from them. -/
class ByteRep (T : Type) where
  size_of : Nat
  size_pos : 0 < size_of
  encode : T → List Nat
  decode : List Nat → T
  encode_length : ∀ v, (encode v).length = size_of
  decode_encode : ∀ v, decode (encode v) = v

/-- `fn to_byte_slice<T: DataType>(data: &[T]) -> &[u8]`: the typed array
viewed as its `data.len() * size_of::<T>()` underlying bytes. -/
def to_byte_slice {T : Type} [ByteRep T] (data : List T) : List Nat :=
  data.flatMap ByteRep.encode

/-- The observable effect of `<[u8]>::align_to::<T>` on a buffer whose
start is alignment-compatible with `T`: the maximal whole-element middle
part, decoding `len / size_of` leading elements and silently dropping the
remainder bytes. -/
def alignToMiddle (T : Type) [ByteRep T] (bytes : List Nat) : List T :=
  if _h : ByteRep.size_of (T := T) ≤ bytes.length then
    ByteRep.decode (bytes.take (ByteRep.size_of (T := T))) ::
      alignToMiddle T (bytes.drop (ByteRep.size_of (T := T)))
  else []
termination_by bytes.length
decreasing_by
  simp only [List.length_drop]
  have hpos := ByteRep.size_pos (T := T)
  omega

/-- `fn from_byte_slice<T: DataType>(data: &[u8]) -> &[T]`: returns the
middle part of `align_to`, with no error on undersized or non-multiple
input. -/
def from_byte_slice (T : Type) [ByteRep T] (data : List Nat) : List T :=
  alignToMiddle T data

/-- Layout of a `u8`: one byte. -/
instance : ByteRep U8 where
  size_of := 1
  size_pos := by decide
  encode := fun v => [v.val]
  decode := fun b => ⟨b.headD 0 % 2 ^ 8, Nat.mod_lt _ (by decide)⟩
  encode_length := fun _ => rfl
  decode_encode := fun v => by
    cases v with
    | mk val h => simp [Nat.mod_eq_of_lt h]; omega

/-- Layout of a `Vector2<T>` (cgmath vectors are `repr(C)`, tightly
packed): the bytes of `x` followed by the bytes of `y`. -/
instance [ByteRep T] : ByteRep (Vector2 T) where
  size_of := 2 * ByteRep.size_of (T := T)
  size_pos := Nat.mul_pos (by decide) (ByteRep.size_pos (T := T))
  encode := fun v => ByteRep.encode v.x ++ ByteRep.encode v.y
  decode := fun b =>
    ⟨ByteRep.decode (b.take (ByteRep.size_of (T := T))),
     ByteRep.decode ((b.drop (ByteRep.size_of (T := T))).take
       (ByteRep.size_of (T := T)))⟩
  encode_length := fun v => by
    simp [List.length_append, ByteRep.encode_length, Nat.two_mul]
  decode_encode := fun v => by
    cases v with
    | mk x y =>
      simp only [Vector2.mk.injEq]
      constructor
      · rw [show ByteRep.size_of (T := T) = (ByteRep.encode x).length from
          (ByteRep.encode_length x).symm]
        rw [List.take_left, ByteRep.decode_encode]
      · rw [show ByteRep.size_of (T := T) = (ByteRep.encode x).length from
          (ByteRep.encode_length x).symm]
        rw [List.drop_left]
        rw [show (ByteRep.encode x).length = (ByteRep.encode y).length by
          rw [ByteRep.encode_length, ByteRep.encode_length]]
        rw [List.take_length, ByteRep.decode_encode]

/- Helper lemmas about the byte-reinterpretation bridge. -/

theorem to_byte_slice_length {T : Type} [ByteRep T] (d : List T) :
    (to_byte_slice d).length = d.length * ByteRep.size_of (T := T) := by
  induction d with
  | nil => simp [to_byte_slice]
  | cons v rest ih =>
    simp only [to_byte_slice, List.flatMap_cons, List.length_append,
      List.length_cons] at *
    rw [ByteRep.encode_length, ih]
    ring

theorem alignToMiddle_to_byte_slice {T : Type} [ByteRep T] (d : List T) :
    alignToMiddle T (to_byte_slice d) = d := by
  induction d with
  | nil =>
    rw [alignToMiddle]
    rw [dif_neg]
    simp only [to_byte_slice, List.flatMap_nil, List.length_nil]
    have := ByteRep.size_pos (T := T)
    omega
  | cons v rest ih =>
    rw [to_byte_slice, List.flatMap_cons, alignToMiddle]
    rw [dif_pos]
    · rw [show ByteRep.size_of (T := T) = (ByteRep.encode v).length from
        (ByteRep.encode_length v).symm]
      rw [List.take_left, List.drop_left, ByteRep.decode_encode]
      exact congrArg _ ih
    · rw [List.length_append, ByteRep.encode_length]
      omega

theorem alignToMiddle_length {T : Type} [ByteRep T] (b : List Nat) :
    (alignToMiddle T b).length = b.length / ByteRep.size_of (T := T) := by
  rw [alignToMiddle]
  by_cases h : ByteRep.size_of (T := T) ≤ b.length
  · rw [dif_pos h, List.length_cons,
      alignToMiddle_length (b.drop (ByteRep.size_of (T := T))),
      List.length_drop,
      Nat.div_eq_sub_div (ByteRep.size_pos (T := T)) h]
  · rw [dif_neg h, List.length_nil, Eq.comm]
    exact Nat.div_eq_of_lt (by omega)
termination_by b.length
decreasing_by
  simp only [List.length_drop]
  have := ByteRep.size_pos (T := T)
  omega

/-- Claim C1: every array of a narrow base kind (u8, u16, i8, i16, f16
scalars, or composites of them) sent through the uniform dispatch engine
invokes the underlying transfer entry point with every element widened to
the promotion target (8/16-bit unsigned to u32, 8/16-bit signed to i32,
half float to full float): the data handed over is exactly the element-wise
widened image of the narrow data, so order and count are preserved and the
widening maps are value preserving; the narrow native width never reaches
an entry point. In particular sending the u8 array [1,2,3] invokes the u32
transfer with [1,2,3]. -/
theorem narrow_kinds_promote_to_native_width :
    (∀ (d : List U8) (t : UniformType),
        u8.send_uniform_with_type d t
          = u32.send_uniform_with_type (d.map U8.as_u32) t)
    ∧ (∀ (d : List U16) (t : UniformType),
        u16.send_uniform_with_type d t
          = u32.send_uniform_with_type (d.map U16.as_u32) t)
    ∧ (∀ (d : List I8) (t : UniformType),
        i8.send_uniform_with_type d t
          = i32.send_uniform_with_type (d.map I8.as_i32) t)
    ∧ (∀ (d : List I16) (t : UniformType),
        i16.send_uniform_with_type d t
          = i32.send_uniform_with_type (d.map I16.as_i32) t)
    ∧ (∀ (d : List F16) (t : UniformType),
        f16.send_uniform_with_type d t
          = f32.send_uniform_with_type (d.map F16.to_f32) t)
    ∧ (∀ v : U8, U8.as_u32 v = v.val)
    ∧ (∀ v : U16, U16.as_u32 v = v.val)
    ∧ (∀ v : I8, I8.as_i32 v = v.val)
    ∧ (∀ v : I16, I16.as_i32 v = v.val)
    ∧ (∀ v : F16, F16.to_f32 v = v.val)
    ∧ (∀ (d : List U8), (d.map U8.as_u32).length = d.length)
    ∧ (∀ (d : List (Vector2 U8)),
        DataType.send_uniform d
          = u32.send_uniform_with_type
              ((d.flatMap fun v => [v.x, v.y]).map U8.as_u32) .Vec2)
    ∧ (∀ (d : List (Vector3 F16)),
        DataType.send_uniform d
          = f32.send_uniform_with_type
              ((d.flatMap fun v => [v.x, v.y, v.z]).map F16.to_f32) .Vec3)
    ∧ DataType.send_uniform
        [U8.mk 1 (by decide), U8.mk 2 (by decide), U8.mk 3 (by decide)]
        = some (GLCall.uniform_1_u32_slice [1, 2, 3]) := by
  refine ⟨fun _ _ => rfl, fun _ _ => rfl, fun _ _ => rfl, fun _ _ => rfl,
    fun _ _ => rfl, fun _ => rfl, fun _ => rfl, fun _ => rfl, fun _ => rfl,
    fun _ => rfl, fun d => List.length_map d _, fun _ => rfl, fun _ => rfl,
    rfl⟩

/-- Claim C2: for every 2x2, 3x3 and 4x4 matrix value type, the component
count used to compute the storage format is the matrix element count (4, 9
and 16 respectively); in particular Mat2's storage format equals that of a
4-component type of the same base kind, and differs from Vec2's storage
format for every base kind. -/
theorem matrix_storage_format_uses_element_count :
    (∀ (S : Type) [PrimitiveDataType S],
        DataType.internal_format (T := Matrix2 S)
            = PrimitiveDataType.internal_format_with_size (T := S) 4
          ∧ DataType.internal_format (T := Matrix3 S)
            = PrimitiveDataType.internal_format_with_size (T := S) 9
          ∧ DataType.internal_format (T := Matrix4 S)
            = PrimitiveDataType.internal_format_with_size (T := S) 16
          ∧ DataType.internal_format (T := Matrix2 S)
            = DataType.internal_format (T := Vector4 S))
    ∧ DataType.internal_format (T := Matrix2 U8)
        ≠ DataType.internal_format (T := Vector2 U8)
    ∧ DataType.internal_format (T := Matrix2 U16)
        ≠ DataType.internal_format (T := Vector2 U16)
    ∧ DataType.internal_format (T := Matrix2 Nat)
        ≠ DataType.internal_format (T := Vector2 Nat)
    ∧ DataType.internal_format (T := Matrix2 I8)
        ≠ DataType.internal_format (T := Vector2 I8)
    ∧ DataType.internal_format (T := Matrix2 I16)
        ≠ DataType.internal_format (T := Vector2 I16)
    ∧ DataType.internal_format (T := Matrix2 Int)
        ≠ DataType.internal_format (T := Vector2 Int)
    ∧ DataType.internal_format (T := Matrix2 F16)
        ≠ DataType.internal_format (T := Vector2 F16)
    ∧ DataType.internal_format (T := Matrix2 Rat)
        ≠ DataType.internal_format (T := Vector2 Rat) := by
  refine ⟨fun S _ => ⟨rfl, rfl, rfl, rfl⟩, by decide, by decide, by decide,
    by decide, by decide, by decide, by decide, by decide⟩

/-- Claim C2 witness: the generic part instantiated at the f32 base kind. -/
theorem matrix_storage_format_uses_element_count_witness :
    DataType.internal_format (T := Matrix2 Rat)
        = PrimitiveDataType.internal_format_with_size (T := Rat) 4
      ∧ DataType.internal_format (T := Matrix3 Rat)
        = PrimitiveDataType.internal_format_with_size (T := Rat) 9
      ∧ DataType.internal_format (T := Matrix4 Rat)
        = PrimitiveDataType.internal_format_with_size (T := Rat) 16
      ∧ DataType.internal_format (T := Matrix2 Rat)
        = DataType.internal_format (T := Vector4 Rat) :=
  matrix_storage_format_uses_element_count.1 Rat

/-- Claim C3: a quaternion is flattened as a 4-component vector in the
order (x, y, z, scalar part), scalar part last, and dispatched through the
Vec4 entry point; a float quaternion with vector part (1,0,0) and scalar
part 5 flattens to [1,0,0,5]. -/
theorem quaternion_flattens_scalar_last :
    (∀ (S : Type) [PrimitiveDataType S] (d : List (Quaternion S)),
        DataType.send_uniform d
          = PrimitiveDataType.send_uniform_with_type
              (d.flatMap fun q => [q.v.x, q.v.y, q.v.z, q.s]) .Vec4)
    ∧ (∀ d : List (Quaternion Rat),
        DataType.send_uniform d
          = some (GLCall.uniform_4_f32_slice
              (d.flatMap fun q => [q.v.x, q.v.y, q.v.z, q.s])))
    ∧ DataType.send_uniform
        [Quaternion.mk (Vector3.mk (1 : Rat) 0 0) 5]
        = some (GLCall.uniform_4_f32_slice [1, 0, 0, 5]) := by
  exact ⟨fun _ _ _ => rfl, fun _ => rfl, by decide⟩

/-- Claim C4: a matrix uniform is flattened in column-major order (columns
concatenated, each column in x,y[,z[,w]] order) and handed to the matrix
transfer entry point with the transpose flag false; a 2x2 matrix with
columns (1,2) and (3,4) flattens to [1,2,3,4]. -/
theorem matrix_flattening_column_major :
    (∀ d : List (Matrix2 Rat),
        DataType.send_uniform d
          = some (GLCall.uniform_matrix_2_f32_slice false
              (d.flatMap fun m => [m.x.x, m.x.y, m.y.x, m.y.y])))
    ∧ (∀ d : List (Matrix3 Rat),
        DataType.send_uniform d
          = some (GLCall.uniform_matrix_3_f32_slice false
              (d.flatMap fun m =>
                [m.x.x, m.x.y, m.x.z, m.y.x, m.y.y, m.y.z,
                 m.z.x, m.z.y, m.z.z])))
    ∧ (∀ d : List (Matrix4 Rat),
        DataType.send_uniform d
          = some (GLCall.uniform_matrix_4_f32_slice false
              (d.flatMap fun m =>
                [m.x.x, m.x.y, m.x.z, m.x.w, m.y.x, m.y.y, m.y.z, m.y.w,
                 m.z.x, m.z.y, m.z.z, m.z.w, m.w.x, m.w.y, m.w.z, m.w.w])))
    ∧ DataType.send_uniform
        [Matrix2.mk (Vector2.mk (1 : Rat) 2) (Vector2.mk 3 4)]
        = some (GLCall.uniform_matrix_2_f32_slice false [1, 2, 3, 4]) := by
  exact ⟨fun _ => rfl, fun _ => rfl, fun _ => rfl, by decide⟩

/-- Claim C5: an array of packed colors is transferred through the Vec4
float entry point as four f32 values per color, each 8-bit channel divided
by 255; the packed color (255, 128, 0, 255) is sent as floats matching
[1.0, 0.50196, 0.0, 1.0] within a tolerance of 1/255. -/
theorem color_sends_normalized_floats :
    (∀ d : List Color,
        DataType.send_uniform d
          = some (GLCall.uniform_4_f32_slice
              (d.flatMap fun c =>
                [(c.r.val : Rat) / 255, (c.g.val : Rat) / 255,
                 (c.b.val : Rat) / 255, (c.a.val : Rat) / 255])))
    ∧ DataType.send_uniform
        [Color.mk (U8.mk 255 (by decide)) (U8.mk 128 (by decide))
          (U8.mk 0 (by decide)) (U8.mk 255 (by decide))]
        = some (GLCall.uniform_4_f32_slice [1, 128 / 255, 0, 1])
    ∧ |(1 : Rat) - 1| ≤ 1 / 255
    ∧ |(128 / 255 : Rat) - 0.50196| ≤ 1 / 255
    ∧ |(0 : Rat) - 0| ≤ 1 / 255
    ∧ |(1 : Rat) - 1| ≤ 1 / 255 := by
  refine ⟨fun _ => rfl, ?_, by rw [abs_le]; constructor <;> norm_num,
    by rw [abs_le]; constructor <;> norm_num,
    by rw [abs_le]; constructor <;> norm_num,
    by rw [abs_le]; constructor <;> norm_num⟩
  have h : DataType.send_uniform
      [Color.mk (U8.mk 255 (by decide)) (U8.mk 128 (by decide))
        (U8.mk 0 (by decide)) (U8.mk 255 (by decide))]
      = some (GLCall.uniform_4_f32_slice
          ([((255 : Nat) : Rat) / 255, ((128 : Nat) : Rat) / 255,
            ((0 : Nat) : Rat) / 255, ((255 : Nat) : Rat) / 255] ++ [])) := rfl
  rw [h]
  norm_num

/-- Claim C6 (counterexample): a packed color is NOT classified with the
attributes of the 32-bit float kind: its storage format is not the f32
storage format at component count 4 and its data-type tag is not FLOAT. -/
theorem color_not_classified_as_float32 :
    DataType.internal_format (T := Color) ≠ f32.internal_format_with_size 4
    ∧ DataType.data_type (T := Color) ≠ context.FLOAT := by
  exact ⟨by decide, by decide⟩

/-- Claim C6 (amended): a packed color has component count 4 and is
transferred through the Vec4 f32 entry point with each channel divided by
255, but its classification attributes are those of the 8-bit unsigned
kind at component count 4: storage format RGBA8 and data-type tag
UNSIGNED_BYTE. -/
theorem color_classified_as_u8_vec4 :
    DataType.size (T := Color) = 4
    ∧ DataType.internal_format (T := Color) = u8.internal_format_with_size 4
    ∧ DataType.internal_format (T := Color) = some context.RGBA8
    ∧ DataType.data_type (T := Color) = context.UNSIGNED_BYTE
    ∧ (∀ d : List Color,
        DataType.send_uniform d
          = f32.send_uniform_with_type
              (d.flatMap fun c =>
                [(c.r.val : Rat) / 255, (c.g.val : Rat) / 255,
                 (c.b.val : Rat) / 255, (c.a.val : Rat) / 255]) .Vec4) := by
  exact ⟨rfl, rfl, rfl, rfl, fun _ => rfl⟩

/-- Claim C7: for every integer-matrix value type the uniform send
operation fails (the `unimplemented!()` panic of the integer dispatch,
modelled as `none`) instead of silently transferring: neither the u32 nor
the i32 dispatch has a matrix transfer branch, for any data. -/
theorem integer_matrix_uniform_unsupported :
    (∀ d : List Nat,
        u32.send_uniform_with_type d .Mat2 = none
          ∧ u32.send_uniform_with_type d .Mat3 = none
          ∧ u32.send_uniform_with_type d .Mat4 = none)
    ∧ (∀ d : List Int,
        i32.send_uniform_with_type d .Mat2 = none
          ∧ i32.send_uniform_with_type d .Mat3 = none
          ∧ i32.send_uniform_with_type d .Mat4 = none)
    ∧ (∀ d : List (Matrix2 Nat), DataType.send_uniform d = none)
    ∧ (∀ d : List (Matrix3 Nat), DataType.send_uniform d = none)
    ∧ (∀ d : List (Matrix4 Nat), DataType.send_uniform d = none)
    ∧ (∀ d : List (Matrix2 Int), DataType.send_uniform d = none)
    ∧ (∀ d : List (Matrix3 Int), DataType.send_uniform d = none)
    ∧ (∀ d : List (Matrix4 Int), DataType.send_uniform d = none)
    ∧ (∀ d : List (Matrix2 U8), DataType.send_uniform d = none)
    ∧ (∀ d : List (Matrix3 U16), DataType.send_uniform d = none)
    ∧ (∀ d : List (Matrix4 I8), DataType.send_uniform d = none)
    ∧ (∀ d : List (Matrix2 I16), DataType.send_uniform d = none) := by
  exact ⟨fun _ => ⟨rfl, rfl, rfl⟩, fun _ => ⟨rfl, rfl, rfl⟩, fun _ => rfl,
    fun _ => rfl, fun _ => rfl, fun _ => rfl, fun _ => rfl, fun _ => rfl,
    fun _ => rfl, fun _ => rfl, fun _ => rfl, fun _ => rfl⟩

/-- Claim C8: for every fixed-size numeric composite type, reinterpreting
a typed array to bytes and back is the identity, and the byte view has
exactly `values.len() * size_of::<T>()` bytes. -/
theorem byte_slice_round_trip (T : Type) [ByteRep T] (d : List T) :
    from_byte_slice T (to_byte_slice d) = d
    ∧ (to_byte_slice d).length = d.length * ByteRep.size_of (T := T) :=
  ⟨alignToMiddle_to_byte_slice d, to_byte_slice_length d⟩

/-- Claim C8 witness: the round trip evaluated on a concrete two-element
array of `Vector2<u8>` values. -/
theorem byte_slice_round_trip_witness :
    from_byte_slice (Vector2 U8)
        (to_byte_slice
          [Vector2.mk (U8.mk 1 (by decide)) (U8.mk 2 (by decide)),
           Vector2.mk (U8.mk 3 (by decide)) (U8.mk 4 (by decide))])
      = [Vector2.mk (U8.mk 1 (by decide)) (U8.mk 2 (by decide)),
         Vector2.mk (U8.mk 3 (by decide)) (U8.mk 4 (by decide))]
    ∧ (to_byte_slice
        [Vector2.mk (U8.mk 1 (by decide)) (U8.mk 2 (by decide)),
         Vector2.mk (U8.mk 3 (by decide)) (U8.mk 4 (by decide))]).length
      = 2 * ByteRep.size_of (T := Vector2 U8) :=
  byte_slice_round_trip (Vector2 U8)
    [Vector2.mk (U8.mk 1 (by decide)) (U8.mk 2 (by decide)),
     Vector2.mk (U8.mk 3 (by decide)) (U8.mk 4 (by decide))]

/-- Claim C9: the bytes-to-typed-array conversion is total and never reads
past the input: on any byte buffer it yields exactly `len / size_of`
leading whole elements, silently truncating a trailing remainder, and on
an undersized buffer it yields the empty slice rather than an error. -/
theorem from_byte_slice_truncates (T : Type) [ByteRep T] (b : List Nat) :
    (from_byte_slice T b).length = b.length / ByteRep.size_of (T := T)
    ∧ (b.length < ByteRep.size_of (T := T) → from_byte_slice T b = []) := by
  constructor
  · exact alignToMiddle_length b
  · intro h
    rw [from_byte_slice, alignToMiddle, dif_neg (by omega)]

/-- Claim C9 witness: for `Vector2<u8>` (element size 2), a 3-byte buffer
silently truncates to a single element and a 1-byte buffer yields the
empty slice, with no error. -/
theorem from_byte_slice_truncates_witness :
    (from_byte_slice (Vector2 U8) [1, 2, 3]).length = 1
    ∧ from_byte_slice (Vector2 U8) [7] = [] :=
  ⟨(from_byte_slice_truncates (Vector2 U8) [1, 2, 3]).1,
   (from_byte_slice_truncates (Vector2 U8) [7]).2 (by decide)⟩

/-- Claim C10: for every base kind, storage-format resolution returns a
value exactly for component counts in {1,2,3,4} and fails fast (the
`unreachable!()` panic, modelled as `none`) for every other count such as
0 or 5; image-format resolution likewise returns a value for each type of
component count 1-4 and fails fast on component counts outside the range
(such as the matrix element counts 9 and 16). -/
theorem format_resolution_unreachable_guard (s : Nat) :
    ((u8.internal_format_with_size s).isSome ↔ (s = 1 ∨ s = 2 ∨ s = 3 ∨ s = 4))
    ∧ ((u16.internal_format_with_size s).isSome ↔ (s = 1 ∨ s = 2 ∨ s = 3 ∨ s = 4))
    ∧ ((u32.internal_format_with_size s).isSome ↔ (s = 1 ∨ s = 2 ∨ s = 3 ∨ s = 4))
    ∧ ((i8.internal_format_with_size s).isSome ↔ (s = 1 ∨ s = 2 ∨ s = 3 ∨ s = 4))
    ∧ ((i16.internal_format_with_size s).isSome ↔ (s = 1 ∨ s = 2 ∨ s = 3 ∨ s = 4))
    ∧ ((i32.internal_format_with_size s).isSome ↔ (s = 1 ∨ s = 2 ∨ s = 3 ∨ s = 4))
    ∧ ((f16.internal_format_with_size s).isSome ↔ (s = 1 ∨ s = 2 ∨ s = 3 ∨ s = 4))
    ∧ ((f32.internal_format_with_size s).isSome ↔ (s = 1 ∨ s = 2 ∨ s = 3 ∨ s = 4))
    ∧ format_from_data_type Rat = some context.RED
    ∧ format_from_data_type (Vector2 Rat) = some context.RG
    ∧ format_from_data_type (Vector3 Rat) = some context.RGB
    ∧ format_from_data_type (Vector4 Rat) = some context.RGBA
    ∧ format_from_data_type (Matrix3 Rat) = none
    ∧ format_from_data_type (Matrix4 Rat) = none := by
  refine ⟨?_, ?_, ?_, ?_, ?_, ?_, ?_, ?_, rfl, rfl, rfl, rfl, rfl, rfl⟩
  all_goals
    rcases s with _ | _ | _ | _ | _ | n <;>
      simp [u8.internal_format_with_size, u16.internal_format_with_size,
        u32.internal_format_with_size, i8.internal_format_with_size,
        i16.internal_format_with_size, i32.internal_format_with_size,
        f16.internal_format_with_size, f32.internal_format_with_size]

/-- Claim C10 witness: the guard evaluated at the out-of-range component
count 5, where every storage-format table must fail. -/
theorem format_resolution_unreachable_guard_witness :
    (u8.internal_format_with_size 5).isSome
      ↔ (5 = 1 ∨ 5 = 2 ∨ 5 = 3 ∨ 5 = 4) :=
  (format_resolution_unreachable_guard 5).1

end ThreeD
